import Mathlib

/-!
Verification of the XDP AIE-profile CT-writer pipeline
(`src/profile/plugin/aie_profile/ve2/aie_profile_ct_writer.cpp` /
`aie_profile_ct_writer.h`) and the metrics-collection manager
(`src/profile/database/parser/metrics_collection_manager.cpp`).

The C++ code is embedded shallowly: machine integers become `Nat`/`Int`
with explicit `% 2^w` where overflow matters, file contents become
`Option (List String)` (`none` = the file cannot be opened), writes to the
output file become the returned `Option String` content, and C++
exceptions become `Except`/result sums.
-/

set_option maxHeartbeats 1000000

/-- 2^64, the modulus of C++ `uint64_t` arithmetic. -/
def UINT64_MOD : Nat := 18446744073709551616

/-- 2^32, the modulus of C++ `uint32_t` arithmetic. -/
def UINT32_MOD : Nat := 4294967296

/-- `AieProfileCTWriter::CORE_MODULE_BASE_OFFSET` (header, line 173). -/
def CORE_MODULE_BASE_OFFSET : Nat := 0x00037520

/-- `AieProfileCTWriter::MEMORY_MODULE_BASE_OFFSET` (header, line 174). -/
def MEMORY_MODULE_BASE_OFFSET : Nat := 0x00011020

/-- `AieProfileCTWriter::MEM_TILE_BASE_OFFSET` (header, line 175). -/
def MEM_TILE_BASE_OFFSET : Nat := 0x00091020

/-- `AieProfileCTWriter::SHIM_TILE_BASE_OFFSET` (header, line 176). -/
def SHIM_TILE_BASE_OFFSET : Nat := 0x00031020

/-- `AieProfileCTWriter::getModuleBaseOffset` (cpp, lines 308-320). -/
def getModuleBaseOffset (module : String) : Nat :=
  if module = "aie" then CORE_MODULE_BASE_OFFSET
  else if module = "aie_memory" then MEMORY_MODULE_BASE_OFFSET
  else if module = "memory_tile" then MEM_TILE_BASE_OFFSET
  else if module = "interface_tile" then SHIM_TILE_BASE_OFFSET
  else CORE_MODULE_BASE_OFFSET

/-- `AieProfileCTWriter::calculateCounterAddress` (cpp, lines 291-306).
`column`, `row`, `counterNumber` are `uint8_t` (< 256); the shifts are
`uint8_t` members; all arithmetic is on `uint64_t`, hence the `% 2^64`. -/
def calculateCounterAddress (columnShift rowShift : Nat)
    (column row counterNumber : Nat) (module : String) : Nat :=
  let tileAddress : Nat :=
    ((column <<< columnShift) % UINT64_MOD) ||| ((row <<< rowShift) % UINT64_MOD)
  let baseOffset : Nat := getModuleBaseOffset module
  let counterOffset : Nat := (counterNumber * 4) % UINT64_MOD
  (tileAddress + baseOffset + counterOffset) % UINT64_MOD

/-- Written from the claim text of C1 (the spec base-offset table):
"aie", "aie_memory", "memory_tile", "interface_tile" map to their four
fixed constants and every other string to the "aie" (core) constant. -/
def baseSpec (m : String) : Nat :=
  if m = "aie" then 0x00037520
  else if m = "aie_memory" then 0x00011020
  else if m = "memory_tile" then 0x00091020
  else if m = "interface_tile" then 0x00031020
  else 0x00037520

/-- Written from the claim text of C1: the address formula
`((uint64(c) << columnShift) | (uint64(r) << rowShift)) + base(m) + 4*k`,
read in `uint64_t` arithmetic. -/
def addressSpec (columnShift rowShift c r k : Nat) (m : String) : Nat :=
  ((((c <<< columnShift) % UINT64_MOD) ||| ((r <<< rowShift) % UINT64_MOD))
    + baseSpec m + 4 * k) % UINT64_MOD

/-- Result of `std::stoi`: a value, or one of the two exceptions it throws. -/
inductive StoiResult where
  | ok (v : Int)
  | invalidArgument
  | outOfRange
deriving DecidableEq

/-- Value of a list of decimal digit characters. -/
def digitsToNat (ds : List Char) : Nat :=
  ds.foldl (fun a c => a * 10 + (c.toNat - 48)) 0

/-- Core of the `std::stoi` model: sign already consumed. -/
def stoiAfterSign (sign : Int) (cs : List Char) : StoiResult :=
  let ds := cs.takeWhile Char.isDigit
  if ds = [] then .invalidArgument
  else
    let v : Int := sign * (digitsToNat ds : Int)
    if v > 2147483647 ∨ v < -2147483648 then .outOfRange else .ok v

/-- Model of `std::stoi` on a character list: skip leading whitespace, an
optional sign, then a maximal run of decimal digits (trailing characters
are ignored); no digits raises `invalid_argument`, a value outside `int`
range raises `out_of_range`. -/
def stoi (cs : List Char) : StoiResult :=
  match cs.dropWhile (fun c => c = ' ' ∨ c = '\t' ∨ c = '\n' ∨ c = '\r') with
  | '-' :: rest => stoiAfterSign (-1) rest
  | '+' :: rest => stoiAfterSign 1 rest
  | rest => stoiAfterSign 1 rest

/-- Split a character list on a separator character (the
`std::getline(ss, tok, ',')` loop, modulo the trailing-empty-token
difference, which the caller's empty-token check makes unobservable). -/
def splitOnCharAux (sep : Char) : List Char → List Char → List (List Char)
  | [], acc => [acc.reverse]
  | c :: rest, acc =>
    if c = sep then acc.reverse :: splitOnCharAux sep rest []
    else splitOnCharAux sep rest (c :: acc)

/-- One step of the quoted-CSV field splitter (cpp, lines 118-132):
`"` toggles the in-quote flag, `,` outside quotes ends a field,
anything else is appended to the current field. -/
def splitFieldsStep (st : Bool × List Char × List (List Char)) (c : Char) :
    Bool × List Char × List (List Char) :=
  let (inQuote, field, fields) := st
  if c = '"' then (!inQuote, field, fields)
  else if c = ',' ∧ !inQuote then (inQuote, [], fields ++ [field])
  else (inQuote, field ++ [c], fields)

/-- `readASMInfoFromCSV`'s CSV field splitter (cpp, lines 118-132),
including the final `fields.push_back(field)`. -/
def splitFieldsQuoted (line : String) : List String :=
  let st := line.toList.foldl splitFieldsStep (false, [], [])
  (st.2.2 ++ [st.2.1]).map List.asString

/-- The literal part of the regex `aie_runtime_control(\d+)\.asm`. -/
def asmLit : List Char := "aie_runtime_control".toList

/-- Attempt to match `aie_runtime_control(\d+)\.asm` at the head of the
list, returning the captured digit run. Greedy `\d+` followed by the
literal `.asm` matches exactly the maximal digit run here. -/
def matchAsmAt (cs : List Char) : Option (List Char) :=
  if asmLit.isPrefixOf cs then
    let rest := cs.drop asmLit.length
    let ds := rest.takeWhile Char.isDigit
    if ds = [] then none
    else if ".asm".toList.isPrefixOf (rest.drop ds.length) then some ds
    else none
  else none

/-- `std::regex_search` with pattern `aie_runtime_control(\d+)\.asm`
(cpp, lines 100, 147): try each start position left to right, return the
first match's captured digit run. -/
def searchAsm : List Char → Option (List Char)
  | [] => none
  | c :: rest =>
    match matchAsmAt (c :: rest) with
    | some ds => some ds
    | none => searchAsm rest

/-- The filename match of `readASMInfoFromCSV` (cpp, line 147). -/
def regexSearchAsm (s : String) : Option (List Char) :=
  searchAsm s.toList

/-- `SaveTimestampInfo` (header, lines 25-28). `lineNumber` is `uint32_t`. -/
structure SaveTimestampInfo where
  lineNumber : Nat
  optionalIndex : Int
deriving DecidableEq

/-- `CTCounterInfo` (header, lines 33-41). `column`, `row`,
`counterNumber` are `uint8_t`; `address` is `uint64_t`. -/
structure CTCounterInfo where
  column : Nat
  row : Nat
  counterNumber : Nat
  module : String
  address : Nat
  metricSet : String
  portDirection : String
deriving DecidableEq

/-- `ASMFileInfo` (header, lines 46-54). `asmId`, `ucNumber`, `colStart`,
`colEnd` are C++ `int`; they stay in range for every non-throwing parse,
so plain `Int` models the UB-free executions. -/
structure ASMFileInfo where
  filename : String
  asmId : Int
  ucNumber : Int
  colStart : Int
  colEnd : Int
  timestamps : List SaveTimestampInfo
  counters : List CTCounterInfo
deriving DecidableEq

deriving instance DecidableEq for Except

/-- C++ `int` → `uint32_t` conversion (value modulo 2^32). -/
def intToUInt32 (v : Int) : Nat :=
  (v % (UINT32_MOD : Int)).toNat

/-- The line-number loop of `readASMInfoFromCSV` (cpp, lines 159-177):
field 3 is split on commas; an empty token is skipped, a token on which
`std::stoi` throws is skipped with a warning (the inner row-level catch),
a parsed token becomes a `SaveTimestampInfo` with `optionalIndex = -1`. -/
def parseTimestamps (numsStr : String) : List SaveTimestampInfo :=
  (splitOnCharAux ',' numsStr.toList []).filterMap fun tok =>
    if tok = [] then none
    else
      match stoi tok with
      | .ok v => some ⟨intToUInt32 v, -1⟩
      | _ => none

/-- The per-row body of `readASMInfoFromCSV` (cpp, lines 116-179), after
the CSV line has been split into fields. `Except.error ()` models an
exception escaping to the file-level catch (cpp, line 188): this happens
exactly when `std::stoi` on the filename's captured ASM-ID digits throws
(cpp, line 148), which the inner catch does not cover. `.ok none` is a
row skipped with a warning; `.ok (some info)` is a loaded row. -/
def processFields (fields : List String) : Except Unit (Option ASMFileInfo) :=
  match fields with
  | [_, filename, numsStr] =>
    match regexSearchAsm filename with
    | none => .ok none
    | some ds =>
      match stoi ds with
      | .ok v =>
        .ok (some { filename := filename
                    asmId := v
                    ucNumber := 4 * v
                    colStart := v * 4
                    colEnd := v * 4 + 3
                    timestamps := parseTimestamps numsStr
                    counters := [] })
      | _ => .error ()
  | _ => .ok none

/-- One data line of `readASMInfoFromCSV` (cpp, lines 112-179): skip an
empty line, otherwise split the fields and process them. -/
def processLine (line : String) : Except Unit (Option ASMFileInfo) :=
  if line = "" then .ok none else processFields (splitFieldsQuoted line)

/-- The scan loop of `readASMInfoFromCSV` (cpp, lines 102-192): rows are
processed in order; an escaping exception ends the scan (the file-level
catch), keeping the rows accumulated so far. -/
def processRows : List String → List ASMFileInfo
  | [] => []
  | l :: rest =>
    match processLine l with
    | .error _ => []
    | .ok none => processRows rest
    | .ok (some info) => info :: processRows rest

/-- Insertion step of the final `std::sort` by ascending `asmId`
(cpp, lines 197-200). -/
def insertByAsmId (x : ASMFileInfo) : List ASMFileInfo → List ASMFileInfo
  | [] => [x]
  | y :: rest =>
    if x.asmId < y.asmId then x :: y :: rest else y :: insertByAsmId x rest

/-- The final sort of `readASMInfoFromCSV` by ascending `asmId`
(cpp, lines 197-200). -/
def sortByAsmId : List ASMFileInfo → List ASMFileInfo
  | [] => []
  | x :: rest => insertByAsmId x (sortByAsmId rest)

/-- `AieProfileCTWriter::readASMInfoFromCSV` (cpp, lines 83-212). The
file is `none` when it cannot be opened (empty result, warning); else a
list of lines, of which the first (header) is skipped unconditionally. -/
def readASMInfoFromCSV : Option (List String) → List ASMFileInfo
  | none => []
  | some [] => []
  | some (_hdr :: rows) => sortByAsmId (processRows rows)

/-- `AieProfileCTWriter::filterCountersByColumn` (cpp, lines 276-289):
keep, in order, the counters whose column lies in `[colStart, colEnd]`
(the `uint8_t` column is promoted to `int` for the comparison). -/
def filterCountersByColumn (allCounters : List CTCounterInfo)
    (colStart colEnd : Int) : List CTCounterInfo :=
  allCounters.filter fun c =>
    decide (colStart ≤ (c.column : Int)) && decide ((c.column : Int) ≤ colEnd)

/-- Does `pat` occur as a contiguous run in the list? Models
`std::string::find(pat) != std::string::npos`. -/
def substrAux (pat : List Char) : List Char → Bool
  | [] => pat.isEmpty
  | c :: rest => pat.isPrefixOf (c :: rest) || substrAux pat rest

/-- `s.find(pat) != std::string::npos` on strings. -/
def containsSubstr (s pat : String) : Bool :=
  substrAux pat.toList s.toList

/-- `AieProfileCTWriter::isThroughputMetric` (cpp, lines 329-333). -/
def isThroughputMetric (metricSet : String) : Bool :=
  containsSubstr metricSet "throughput" || containsSubstr metricSet "bandwidth"

/-- `AieProfileCTWriter::getPortDirection` (cpp, lines 335-360). The
payload is `uint64_t`; only bit 8 (`PAYLOAD_IS_MASTER_SHIFT`) is read. -/
def getPortDirection (metricSet : String) (payload : Nat) : String :=
  if metricSet = "ddr_bandwidth" ∨ metricSet = "read_bandwidth" ∨
     metricSet = "write_bandwidth" then
    if (payload >>> 8) &&& 1 = 1 then "output" else "input"
  else if containsSubstr metricSet "input" || containsSubstr metricSet "s2mm" then
    "input"
  else if containsSubstr metricSet "output" || containsSubstr metricSet "mm2s" then
    "output"
  else ""

/-- The port-direction assignment of `getConfiguredCounters`
(cpp, lines 259-264): `getPortDirection` is consulted only for
throughput metrics, otherwise the direction is the empty string. -/
def resolvePortDirection (metricSet : String) (payload : Nat) : String :=
  if isThroughputMetric metricSet then getPortDirection metricSet payload else ""

/-- `AieProfileCTWriter::formatAddress` (cpp, lines 322-327):
`0x` followed by the lowercase hex digits, zero-padded on the left to a
minimum width of 10 (`std::setw(10)` with `std::setfill('0')`). -/
def formatAddress (address : Nat) : String :=
  let hexDigits := Nat.toDigits 16 address
  let padded :=
    if hexDigits.length < 10 then
      List.replicate (10 - hexDigits.length) '0' ++ hexDigits
    else hexDigits
  "0x" ++ padded.asString

/-- Concatenation of a list of strings, in order. -/
def strJoin : List String → String
  | [] => ""
  | s :: rest => s ++ strJoin rest

/-- The optional `metric_set` clause of a counter-metadata entry
(cpp, lines 403-405). -/
def metricClause (c : CTCounterInfo) : String :=
  if c.metricSet = "" then ""
  else ", \"metric_set\": \"" ++ c.metricSet ++ "\""

/-- The optional `port_direction` clause of a counter-metadata entry
(cpp, lines 407-410). -/
def portClause (c : CTCounterInfo) : String :=
  if c.portDirection = "" then ""
  else ", \"port_direction\": \"" ++ c.portDirection ++ "\""

/-- One counter-metadata entry of `writeCTFile` (cpp, lines 394-412),
without the trailing comma/newline. -/
def metadataEntry (c : CTCounterInfo) : String :=
  "        \x7b\"column\": " ++ toString c.column
    ++ ", \"row\": " ++ toString c.row
    ++ ", \"counter\": " ++ toString c.counterNumber
    ++ ", \"module\": \"" ++ c.module
    ++ "\", \"address\": \"" ++ formatAddress c.address ++ "\""
    ++ metricClause c ++ portClause c ++ "\x7d"

/-- The counter-metadata list of `writeCTFile` (cpp, lines 394-416): one
entry per configured counter, a comma after every entry but the last. -/
def metadataSection (allCounters : List CTCounterInfo) : String :=
  strJoin (allCounters.enum.map fun ic =>
    metadataEntry ic.2
      ++ (if ic.1 < allCounters.length - 1 then "," else "") ++ "\n")

/-- `operator<` of `std::pair<uint8_t, uint8_t>`: lexicographic. -/
def pairLt (a b : Nat × Nat) : Bool :=
  a.1 < b.1 || (a.1 = b.1 && a.2 < b.2)

/-- `tileCounters[key].push_back(i)` on the ordered-map model
(cpp, lines 458-462): keep the association list sorted by `pairLt`,
appending `i` to the entry of `key` (creating it if absent). -/
def mapAppend (key : Nat × Nat) (i : Nat) :
    List ((Nat × Nat) × List Nat) → List ((Nat × Nat) × List Nat)
  | [] => [(key, [i])]
  | (k, v) :: rest =>
    if pairLt key k then (key, [i]) :: (k, v) :: rest
    else if key = k then (k, v ++ [i]) :: rest
    else (k, v) :: mapAppend key i rest

/-- The tile-grouping loop of `writeCTFile` (cpp, lines 457-462): insert
each counter index under its `(column, row)` key. -/
def tileGroupsAux : List (Nat × CTCounterInfo) →
    List ((Nat × Nat) × List Nat) → List ((Nat × Nat) × List Nat)
  | [], m => m
  | (i, c) :: rest, m => tileGroupsAux rest (mapAppend (c.column, c.row) i m)

/-- The `tileCounters` map of `writeCTFile` (cpp, lines 457-462), as the
association list in the order a `std::map` iterates it (sorted keys). -/
def tileGroups (counters : List CTCounterInfo) : List ((Nat × Nat) × List Nat) :=
  tileGroupsAux counters.enum []

/-- `fs::path(filename).filename()` (cpp, line 429): the component after
the last slash. -/
def pathBasename (s : String) : String :=
  ((splitOnCharAux '/' s.toList []).getLastD []).asString

/-- Join strings with a separator between consecutive elements (the
`if (i > 0) out << sep` idiom). -/
def sepJoin (sep : String) : List String → String
  | [] => ""
  | [s] => s
  | s :: t :: rest => s ++ sep ++ sepJoin sep (t :: rest)

/-- The fixed header and begin-block of the CT file
(cpp, lines 376-392), up to and including the opening of the
`counter_metadata` list. -/
def ctPrologue : String :=
  "# Auto-generated CT file for AIE Profile counters\n# Generated by XRT AIE Profile Plugin\n\nbegin\n\x7b\n    ts_start = timestamp32()\n    print(\"\\nAIE Profile tracing started\\n\")\n@blockopen\nimport json\nimport os\n\n# Initialize data collection\nprofile_data = \x7b\n    \"start_timestamp\": ts_start,\n    \"counter_metadata\": [\n"

/-- The close of the metadata list and of the begin-block
(cpp, lines 418-422). -/
def ctMidSection : String :=
  "    ],\n    \"probes\": []\n\x7d\n@blockclose\n\x7d\n\n"

/-- The fixed end-block of the CT file (cpp, lines 501-514). -/
def ctEpilogue : String :=
  "end\n\x7b\n    ts_end = timestamp32()\n    print(\"\\nAIE Profile tracing ended\\n\")\n@blockopen\nprofile_data[\"end_timestamp\"] = ts_end\nprofile_data[\"total_time\"] = ts_end - profile_data[\"start_timestamp\"]\n\noutput_path = os.path.join(os.getcwd(), \"aie_profile_counters.json\")\nwith open(output_path, \"w\") as f:\n    json.dump(profile_data, f, indent=2)\nprint(f\"Profile data written to \x7boutput_path\x7d\")\n@blockclose\n\x7d\n"

/-- One tile group line of a jprobe block (cpp, lines 477-487), without
the trailing comma/newline. -/
def tileLine (tile : Nat × Nat) (counterIndices : List Nat) : String :=
  "        \x7b\"col\": " ++ toString tile.1
    ++ ", \"row\": " ++ toString tile.2
    ++ ", \"counters\": ["
    ++ sepJoin ", " (counterIndices.map fun j => "ctr_" ++ toString j)
    ++ "]\x7d"

/-- The tile-group lines of a jprobe block (cpp, lines 471-492): one
line per `tileCounters` entry (in map order), a comma after every line
but the last. -/
def tileLines (counters : List CTCounterInfo) : String :=
  let gs := tileGroups counters
  strJoin (gs.enum.map fun tg =>
    tileLine tg.2.1 tg.2.2 ++ (if tg.1 < gs.length - 1 then "," else "") ++ "\n")

/-- One emitted jprobe block of `writeCTFile` (cpp, lines 429-497), for
a record that is not skipped. -/
def jprobeBlock (f : ASMFileInfo) : String :=
  let basename := pathBasename f.filename
  let lineList :=
    "line" ++ sepJoin "," (f.timestamps.map fun ts => toString ts.lineNumber)
  "# Probes for " ++ basename ++ " (columns " ++ toString f.colStart ++ "-"
    ++ toString f.colEnd ++ ")\n"
  ++ "jprobe:" ++ basename ++ ":uc" ++ toString f.ucNumber ++ ":" ++ lineList ++ "\n"
  ++ "\x7b\n    ts = timestamp32()\n"
  ++ strJoin (f.counters.enum.map fun ic =>
       "    ctr_" ++ toString ic.1 ++ " = read_reg("
         ++ formatAddress ic.2.address ++ ")\n")
  ++ "    print(f\"Probe fired: ts=\x7bts\x7d\")\n@blockopen\nprofile_data[\"probes\"].append(\x7b\n"
  ++ "    \"asm_file\": \"" ++ basename ++ "\",\n    \"timestamp\": ts,\n    \"tiles\": [\n"
  ++ tileLines f.counters
  ++ "    ]\n\x7d)\n@blockclose\n\x7d\n\n"

/-- The per-record part of `writeCTFile` (cpp, lines 425-498): a record
whose probe-point list or counter list is empty emits nothing. -/
def jprobeSection (f : ASMFileInfo) : String :=
  if f.timestamps.isEmpty || f.counters.isEmpty then "" else jprobeBlock f

/-- `AieProfileCTWriter::writeCTFile` (cpp, lines 362-523). `openOk`
models whether the output file could be opened (cpp, lines 366-373);
`none` in the second component means nothing was written. -/
def writeCTFile (openOk : Bool) (asmFiles : List ASMFileInfo)
    (allCounters : List CTCounterInfo) : Bool × Option String :=
  if !openOk then (false, none)
  else
    (true, some (ctPrologue ++ metadataSection allCounters ++ ctMidSection
      ++ strJoin (asmFiles.map jprobeSection) ++ ctEpilogue))

/-- `AieProfileCTWriter::generate` (cpp, lines 42-81). Inputs: the CSV
manifest contents (`none` = file absent), the configured counters as
`getConfiguredCounters` returns them, and whether the output file can be
opened. The result pairs the boolean return value with the output file
contents (`none` = no write to the output path occurred). -/
def generate (csvLines : Option (List String))
    (allCounters : List CTCounterInfo) (openOk : Bool) : Bool × Option String :=
  let asmFiles := readASMInfoFromCSV csvLines
  if asmFiles.isEmpty then (false, none)
  else if allCounters.isEmpty then (false, none)
  else
    let hasTimestamps := asmFiles.any fun f => !f.timestamps.isEmpty
    let filtered := asmFiles.map fun f =>
      { f with counters := filterCountersByColumn allCounters f.colStart f.colEnd }
    if !hasTimestamps then (false, none)
    else writeCTFile openOk filtered allCounters

/-- Modelled from the spec: `module_type` (declared in
`aie_constructs.h`, which is not under src/) is a closed enumeration of
AIE module kinds; only its identity as a decidable-equality map key
matters to the manager. -/
inductive module_type where
  | core
  | dma
  | shim
  | mem_tile
  | uc
deriving DecidableEq

/-- Modelled from the spec: `MetricCollection` (declared outside src/)
is a container of per-setting metric data; default construction yields
an empty collection. Its contents are irrelevant to the manager's
add/get semantics, so it is modelled as a list of entries. -/
structure MetricCollection where
  entries : List String := []
deriving DecidableEq

/-- The `static const MetricCollection emptyCollection` default returned
by `getMetricCollection` (metrics_collection_manager.cpp, line 24):
a default-constructed, empty collection. -/
def emptyCollection : MetricCollection := {}

/-- Insert-or-assign on an association list: the `operator[] = `
semantics of `std::map` (ordering of `std::map` iteration is irrelevant
to lookup, so a plain association list models it). -/
def assocInsert {α β : Type} [DecidableEq α] (k : α) (v : β) :
    List (α × β) → List (α × β)
  | [] => [(k, v)]
  | (k1, v1) :: rest =>
    if k = k1 then (k, v) :: rest else (k1, v1) :: assocInsert k v rest

/-- `std::map::find` on the association-list model. -/
def assocFind {α β : Type} [DecidableEq α] (k : α) :
    List (α × β) → Option β
  | [] => none
  | (k1, v1) :: rest => if k = k1 then some v1 else assocFind k rest

/-- The state of `MetricsCollectionManager`: the two-level map
`allModulesMetricCollections` (module → setting name → collection). -/
structure MetricsCollectionManager where
  allModulesMetricCollections :
    List (module_type × List (String × MetricCollection)) := []

/-- `MetricsCollectionManager::addMetricCollection`
(metrics_collection_manager.cpp, lines 7-10):
`allModulesMetricCollections[mod][settingName] = collection`, where each
`operator[]` default-constructs a missing entry. -/
def addMetricCollection (mgr : MetricsCollectionManager) (mod : module_type)
    (settingName : String) (collection : MetricCollection) :
    MetricsCollectionManager :=
  let inner := (assocFind mod mgr.allModulesMetricCollections).getD []
  { allModulesMetricCollections :=
      assocInsert mod (assocInsert settingName collection inner)
        mgr.allModulesMetricCollections }

/-- `MetricsCollectionManager::getMetricCollection`
(metrics_collection_manager.cpp, lines 12-26): a `const` method (the
manager is read, never written) using `find` at both levels, returning
the empty collection when either lookup fails. -/
def getMetricCollection (mgr : MetricsCollectionManager) (mod : module_type)
    (settingName : String) : MetricCollection :=
  match assocFind mod mgr.allModulesMetricCollections with
  | some inner =>
    match assocFind settingName inner with
    | some c => c
    | none => emptyCollection
  | none => emptyCollection

/-- Whether the manager holds an entry for `(mod, settingName)`. -/
def hasEntry (mgr : MetricsCollectionManager) (mod : module_type)
    (settingName : String) : Bool :=
  match assocFind mod mgr.allModulesMetricCollections with
  | some inner => (assocFind settingName inner).isSome
  | none => false

lemma strAppendEmpty (s : String) : s ++ "" = s := by
  cases s with
  | mk data =>
    show String.mk (data ++ []) = String.mk data
    rw [List.append_nil]

lemma strJoin_all_empty (l : List String) (h : ∀ s ∈ l, s = "") :
    strJoin l = "" := by
  induction l with
  | nil => rfl
  | cons s rest ih =>
    have hs := h s (List.mem_cons_self s rest)
    rw [strJoin, hs, ih fun t ht => h t (List.mem_cons_of_mem s ht)]
    rfl

lemma assocFind_insert_self {α β : Type} [DecidableEq α] (k : α) (v : β)
    (l : List (α × β)) : assocFind k (assocInsert k v l) = some v := by
  induction l with
  | nil => simp [assocInsert, assocFind]
  | cons p rest ih =>
    by_cases h : k = p.1
    · simp [assocInsert, assocFind, h]
    · simp [assocInsert, assocFind, h, ih]

/-- C1: `calculateCounterAddress` returns
`((uint64(c) << columnShift) | (uint64(r) << rowShift)) + base(m) + 4*k`
(in `uint64_t` arithmetic), where `base` maps "aie", "aie_memory",
"memory_tile", "interface_tile" to their four fixed constants and every
other string to the "aie" (core) constant; the address is a pure
function of `(c, r, k, m, shifts)` (immediate, since the embedding is a
function), and changing only `k` by 1 changes the result by exactly 4
(in `uint64_t` arithmetic). -/
theorem C1_counter_address (columnShift rowShift c r k : Nat) (m : String)
    (hk : k < 256) :
    calculateCounterAddress columnShift rowShift c r k m
      = addressSpec columnShift rowShift c r k m
    ∧ getModuleBaseOffset "aie" = 0x00037520
    ∧ getModuleBaseOffset "aie_memory" = 0x00011020
    ∧ getModuleBaseOffset "memory_tile" = 0x00091020
    ∧ getModuleBaseOffset "interface_tile" = 0x00031020
    ∧ (m ≠ "aie" → m ≠ "aie_memory" → m ≠ "memory_tile" → m ≠ "interface_tile" →
        getModuleBaseOffset m = getModuleBaseOffset "aie")
    ∧ calculateCounterAddress columnShift rowShift c r (k + 1) m
        = (calculateCounterAddress columnShift rowShift c r k m + 4) % UINT64_MOD := by
  refine ⟨?_, by decide, by decide, by decide, by decide, ?_, ?_⟩
  · simp only [calculateCounterAddress, addressSpec, getModuleBaseOffset, baseSpec,
      CORE_MODULE_BASE_OFFSET, MEMORY_MODULE_BASE_OFFSET, MEM_TILE_BASE_OFFSET,
      SHIM_TILE_BASE_OFFSET]
    have h4 : k * 4 % UINT64_MOD = 4 * k := by
      unfold UINT64_MOD; omega
    rw [h4]
  · intro h1 h2 h3 h4
    simp [getModuleBaseOffset, h1, h2, h3, h4]
  · simp only [calculateCounterAddress]
    unfold UINT64_MOD
    omega

/-- Witness for C1 at a concrete input. -/
theorem C1_counter_address_witness :
    5 < 256
    ∧ calculateCounterAddress 25 20 2 3 5 "interface_tile"
        = addressSpec 25 20 2 3 5 "interface_tile"
    ∧ calculateCounterAddress 25 20 2 3 6 "interface_tile"
        = (calculateCounterAddress 25 20 2 3 5 "interface_tile" + 4) % UINT64_MOD :=
  ⟨by decide,
   (C1_counter_address 25 20 2 3 5 "interface_tile" (by decide)).1,
   (C1_counter_address 25 20 2 3 5 "interface_tile" (by decide)).2.2.2.2.2.2⟩

/-- C7: when the manifest file is absent (or yields no records),
`generate` returns `false` and nothing is written to the output path
(the second component of the model result, the written contents, is
`none`). -/
theorem C7_absent_manifest (counters : List CTCounterInfo) (openOk : Bool) :
    generate none counters openOk = (false, none)
    ∧ ∀ csvLines, readASMInfoFromCSV csvLines = [] →
        generate csvLines counters openOk = (false, none) := by
  constructor
  · rfl
  · intro csvLines h
    simp [generate, h]

/-- Witness for C7 at a concrete input (a manifest with a header only). -/
theorem C7_absent_manifest_witness :
    readASMInfoFromCSV (some ["filepath,filename,line_numbers"]) = []
    ∧ generate (some ["filepath,filename,line_numbers"])
        [⟨0, 0, 0, "aie", 0, "", ""⟩] true = (false, none) :=
  ⟨rfl,
   (C7_absent_manifest [⟨0, 0, 0, "aie", 0, "", ""⟩] true).2
     (some ["filepath,filename,line_numbers"]) rfl⟩

/-- C8: `generate` is deterministic: the embedding of the pipeline is a
pure function of the CSV manifest contents and the live counter
configuration (the C++ code keeps no mutable state across invocations),
so two runs on identical inputs return the same boolean result and
byte-identical output contents. -/
theorem C8_generate_deterministic (csvLines : Option (List String))
    (counters : List CTCounterInfo) (openOk : Bool) :
    (generate csvLines counters openOk).1 = (generate csvLines counters openOk).1
    ∧ (generate csvLines counters openOk).2 = (generate csvLines counters openOk).2 :=
  ⟨rfl, rfl⟩

/-- C9: `getMetricCollection` returns the empty collection when no entry
for `(mod, name)` was added (and, being a `const` lookup in the
embedding, leaves the manager unchanged), and after
`addMetricCollection mgr mod name c` the lookup of `(mod, name)` returns
`c`, the most recently added collection for that key. -/
theorem C9_metrics_collection_lookup (mgr : MetricsCollectionManager)
    (mod : module_type) (name : String) (c : MetricCollection) :
    getMetricCollection (addMetricCollection mgr mod name c) mod name = c
    ∧ (hasEntry mgr mod name = false →
        getMetricCollection mgr mod name = emptyCollection) := by
  constructor
  · unfold addMetricCollection getMetricCollection
    simp only [assocFind_insert_self]
  · intro h
    unfold getMetricCollection
    unfold hasEntry at h
    split at h
    · rename_i inner heq
      cases hf : assocFind name inner with
      | none => rfl
      | some c1 => rw [hf] at h; simp at h
    · rfl

/-- C6: a counter appears in `filterCountersByColumn`'s result iff it is
in the input and `colStart ≤ column ≤ colEnd`; the result is a sublist
of the input (relative order preserved); and for two disjoint column
ranges no counter appears in both filtered sets, hence at most one
record's set when the records' ranges are pairwise non-overlapping. -/
theorem C6_filter_counters (allCounters : List CTCounterInfo)
    (colStart colEnd : Int) :
    (∀ c, c ∈ filterCountersByColumn allCounters colStart colEnd ↔
      c ∈ allCounters ∧ colStart ≤ (c.column : Int) ∧ (c.column : Int) ≤ colEnd)
    ∧ (filterCountersByColumn allCounters colStart colEnd).Sublist allCounters
    ∧ ∀ s2 e2 : Int,
        (∀ x : Int, ¬(colStart ≤ x ∧ x ≤ colEnd ∧ s2 ≤ x ∧ x ≤ e2)) →
        ∀ c, c ∈ filterCountersByColumn allCounters colStart colEnd →
          c ∉ filterCountersByColumn allCounters s2 e2 := by
  refine ⟨?_, List.filter_sublist _, ?_⟩
  · intro c
    simp [filterCountersByColumn, List.mem_filter]
  · intro s2 e2 hdisj c h1 h2
    simp [filterCountersByColumn, List.mem_filter] at h1 h2
    exact hdisj c.column ⟨h1.2.1, h1.2.2, h2.2.1, h2.2.2⟩

/-- Witness for C6 at a concrete input: ranges [0,3] and [4,7] are
disjoint and a column-2 counter is only in the first filtered set. -/
theorem C6_filter_counters_witness :
    (∀ x : Int, ¬((0 : Int) ≤ x ∧ x ≤ 3 ∧ (4 : Int) ≤ x ∧ x ≤ 7))
    ∧ (⟨2, 0, 0, "aie", 0, "", ""⟩ : CTCounterInfo) ∈
        filterCountersByColumn [⟨2, 0, 0, "aie", 0, "", ""⟩] 0 3
    ∧ (⟨2, 0, 0, "aie", 0, "", ""⟩ : CTCounterInfo) ∉
        filterCountersByColumn [⟨2, 0, 0, "aie", 0, "", ""⟩] 4 7 := by
  have hdisj : ∀ x : Int, ¬((0 : Int) ≤ x ∧ x ≤ 3 ∧ (4 : Int) ≤ x ∧ x ≤ 7) := by
    intro x; omega
  have hmem : (⟨2, 0, 0, "aie", 0, "", ""⟩ : CTCounterInfo) ∈
      filterCountersByColumn [⟨2, 0, 0, "aie", 0, "", ""⟩] 0 3 := by decide
  exact ⟨hdisj, hmem,
    (C6_filter_counters [⟨2, 0, 0, "aie", 0, "", ""⟩] 0 3).2.2 4 7 hdisj
      ⟨2, 0, 0, "aie", 0, "", ""⟩ hmem⟩

/-- C10: when some loaded record has probe points and counters are
configured, but no counter's column lies in any record's column range,
`generate` still writes the output script — the preamble, one metadata
entry per configured counter (the metadata section), and the epilogue,
with zero instrumentation blocks between them — and returns `true`. -/
theorem C10_disjoint_columns_output (csvLines : Option (List String))
    (counters : List CTCounterInfo)
    (h1 : ∃ f ∈ readASMInfoFromCSV csvLines, f.timestamps ≠ [])
    (h2 : counters ≠ [])
    (h3 : ∀ c ∈ counters, ∀ f ∈ readASMInfoFromCSV csvLines,
        ¬(f.colStart ≤ (c.column : Int) ∧ (c.column : Int) ≤ f.colEnd)) :
    generate csvLines counters true =
      (true, some (ctPrologue ++ metadataSection counters ++ ctMidSection
        ++ ctEpilogue)) := by
  obtain ⟨f0, hf0, hts⟩ := h1
  have hAe : (readASMInfoFromCSV csvLines).isEmpty = false := by
    cases hl : readASMInfoFromCSV csvLines with
    | nil => rw [hl] at hf0; exact absurd hf0 (List.not_mem_nil f0)
    | cons a l => rfl
  have hce : counters.isEmpty = false := by
    cases counters with
    | nil => exact absurd rfl h2
    | cons a l => rfl
  have hany : (readASMInfoFromCSV csvLines).any
      (fun f => !f.timestamps.isEmpty) = true := by
    refine List.any_eq_true.mpr ⟨f0, hf0, ?_⟩
    cases hl : f0.timestamps with
    | nil => exact absurd hl hts
    | cons a l => rfl
  have hfilt : ∀ f ∈ readASMInfoFromCSV csvLines,
      filterCountersByColumn counters f.colStart f.colEnd = [] := by
    intro f hf
    refine List.filter_eq_nil_iff.mpr ?_
    intro c hc
    simp only [Bool.and_eq_true, decide_eq_true_eq]
    exact fun hp => h3 c hc f hf hp
  have hjoin : strJoin (((readASMInfoFromCSV csvLines).map fun f =>
      { f with counters :=
          filterCountersByColumn counters f.colStart f.colEnd }).map
        jprobeSection) = "" := by
    apply strJoin_all_empty
    intro s hs
    obtain ⟨g, hg, rfl⟩ := List.mem_map.mp hs
    obtain ⟨f, hf, rfl⟩ := List.mem_map.mp hg
    unfold jprobeSection
    rw [hfilt f hf]
    simp
  simp only [generate, writeCTFile, hAe, hce, hany, Bool.not_true,
    Bool.false_eq_true, if_false]
  rw [hjoin, strAppendEmpty]

/-- Witness for C10 at a concrete input: one record owning columns 0-3
with one probe point, one counter at column 5. -/
theorem C10_disjoint_columns_output_witness :
    (∃ f ∈ readASMInfoFromCSV (some ["h", "p,aie_runtime_control0.asm,6"]),
      f.timestamps ≠ [])
    ∧ ([⟨5, 0, 0, "aie", 0, "", ""⟩] : List CTCounterInfo) ≠ []
    ∧ generate (some ["h", "p,aie_runtime_control0.asm,6"])
        [⟨5, 0, 0, "aie", 0, "", ""⟩] true =
      (true, some (ctPrologue ++ metadataSection [⟨5, 0, 0, "aie", 0, "", ""⟩]
        ++ ctMidSection ++ ctEpilogue)) :=
  ⟨by decide, by decide,
   C10_disjoint_columns_output (some ["h", "p,aie_runtime_control0.asm,6"])
     [⟨5, 0, 0, "aie", 0, "", ""⟩] (by decide) (by decide) (by decide)⟩

lemma mem_insertByAsmId {x y : ASMFileInfo} :
    ∀ {l}, y ∈ insertByAsmId x l ↔ y = x ∨ y ∈ l := by
  intro l
  induction l with
  | nil => simp [insertByAsmId]
  | cons z rest ih =>
    simp only [insertByAsmId]
    by_cases h : x.asmId < z.asmId
    · rw [if_pos h]
      simp [List.mem_cons]
    · rw [if_neg h]
      simp [List.mem_cons, ih]
      tauto

lemma mem_sortByAsmId {y : ASMFileInfo} : ∀ {l}, y ∈ sortByAsmId l ↔ y ∈ l := by
  intro l
  induction l with
  | nil => simp [sortByAsmId]
  | cons x rest ih => simp [sortByAsmId, mem_insertByAsmId, ih]

lemma mem_processRows :
    ∀ {rows : List String},
      (∀ l ∈ rows, processLine l ≠ Except.error ()) →
      ∀ {l rec}, l ∈ rows → processLine l = Except.ok (some rec) →
        rec ∈ processRows rows := by
  intro rows
  induction rows with
  | nil =>
    intro _ l rec h
    simp at h
  | cons a rest ih =>
    intro hok l rec hl hrec
    have ha := hok a (List.mem_cons_self a rest)
    have hok2 : ∀ l ∈ rest, processLine l ≠ Except.error () :=
      fun l hl => hok l (List.mem_cons_of_mem a hl)
    simp only [processRows]
    cases hpa : processLine a with
    | error e => cases e; exact absurd hpa ha
    | ok o =>
      cases o with
      | none =>
        rcases List.mem_cons.mp hl with h | h
        · rw [h, hpa] at hrec
          simp at hrec
        · exact ih hok2 h hrec
      | some info =>
        rcases List.mem_cons.mp hl with h | h
        · rw [h, hpa] at hrec
          simp only [Except.ok.injEq, Option.some.injEq] at hrec
          rw [← hrec]
          exact List.mem_cons_self _ _
        · exact List.mem_cons_of_mem _ (ih hok2 h hrec)

/-- Counterexample to C2: the second data row's filename carries an ASM
ID whose digits exceed `int` range, so the `std::stoi` at cpp line 148
throws `out_of_range`; that conversion error is raised while parsing a
single data row but escapes to the file-level catch (cpp, line 188), so
the third row — which parses fine on its own — never appears in the
returned sequence. -/
theorem C2_counterexample :
    readASMInfoFromCSV (some ["filepath,filename,line_numbers",
        "p,aie_runtime_control0.asm,6",
        "p,aie_runtime_control99999999999.asm,7",
        "p,aie_runtime_control1.asm,8"])
      = [⟨"aie_runtime_control0.asm", 0, 0, 0, 3, [⟨6, -1⟩], []⟩]
    ∧ processLine "p,aie_runtime_control1.asm,8"
      = Except.ok (some ⟨"aie_runtime_control1.asm", 1, 4, 4, 7, [⟨8, -1⟩], []⟩)
    ∧ stoi "99999999999".toList = StoiResult.outOfRange :=
  ⟨by decide, by decide, by decide⟩

/-- C2 amended: a numeric-conversion error raised while parsing the
line-number tokens of a data row is caught at that row's level and never
escapes (`processFields` can only fail on the filename's ASM-ID
conversion), and when no row raises a filename-ID conversion error, the
remaining rows of the file are all scanned: every row that parses to a
record appears in the returned sequence. A filename-ID conversion error
(digits beyond `int` range) instead aborts the scan of the remaining
rows. -/
theorem C2_amended_row_level (hdr : String) (rows : List String) :
    (∀ fields, processFields fields = Except.error () →
      ∃ f0 name nums ds, fields = [f0, name, nums]
        ∧ regexSearchAsm name = some ds
        ∧ (stoi ds = StoiResult.invalidArgument ∨ stoi ds = StoiResult.outOfRange))
    ∧ ((∀ l ∈ rows, processLine l ≠ Except.error ()) →
       ∀ l ∈ rows, ∀ rec, processLine l = Except.ok (some rec) →
         rec ∈ readASMInfoFromCSV (some (hdr :: rows))) := by
  constructor
  · intro fields h
    unfold processFields at h
    split at h
    · rename_i f0 name nums
      split at h
      · simp at h
      · rename_i ds hr
        split at h
        · simp at h
        · rename_i x hne
          cases hs : stoi ds with
          | ok v => exact absurd hs (hne v)
          | invalidArgument => exact ⟨f0, name, nums, ds, rfl, hr, Or.inl hs⟩
          | outOfRange => exact ⟨f0, name, nums, ds, rfl, hr, Or.inr hs⟩
    · simp at h
  · intro hok l hl rec hrec
    unfold readASMInfoFromCSV
    exact mem_sortByAsmId.mpr (mem_processRows hok hl hrec)

/-- Witness for C2 (amended) at a concrete input: the first row has an
unparsable line-number token "x", yet is loaded (minus that token) and
both rows appear in the result. -/
theorem C2_amended_row_level_witness :
    (∀ l ∈ ["p,aie_runtime_control0.asm,\"6,x,9\"",
            "p,aie_runtime_control1.asm,7"],
      processLine l ≠ Except.error ())
    ∧ processLine "p,aie_runtime_control0.asm,\"6,x,9\""
      = Except.ok (some ⟨"aie_runtime_control0.asm", 0, 0, 0, 3,
          [⟨6, -1⟩, ⟨9, -1⟩], []⟩)
    ∧ (⟨"aie_runtime_control0.asm", 0, 0, 0, 3, [⟨6, -1⟩, ⟨9, -1⟩], []⟩ :
        ASMFileInfo) ∈
      readASMInfoFromCSV (some ("h" :: ["p,aie_runtime_control0.asm,\"6,x,9\"",
        "p,aie_runtime_control1.asm,7"])) :=
  ⟨by decide, by decide,
   (C2_amended_row_level "h"
      ["p,aie_runtime_control0.asm,\"6,x,9\"", "p,aie_runtime_control1.asm,7"]).2
     (by decide) "p,aie_runtime_control0.asm,\"6,x,9\"" (by decide) _ (by decide)⟩

/-- Counterexample to C4: a data row whose field 3 contains the
unparsable line-number token "x" is NOT skipped: the row's record is
retained in the loader's output, carrying the two parsable tokens, and
only the bad token is dropped (inner catch, cpp lines 171-175). -/
theorem C4_counterexample :
    readASMInfoFromCSV (some ["filepath,filename,line_numbers",
        "p,aie_runtime_control0.asm,\"6,x,9\""])
      = [⟨"aie_runtime_control0.asm", 0, 0, 0, 3, [⟨6, -1⟩, ⟨9, -1⟩], []⟩]
    ∧ stoi "x".toList = StoiResult.invalidArgument :=
  ⟨by decide, by decide⟩

/-- C4 amended: for a manifest data row containing an unparsable
line-number token in field 3, only that token is skipped (with a
warning): the row still yields an `InstrumentationRecord` whose
timestamps are exactly the parsable tokens, every parsable token of the
row survives, and processing continues. -/
theorem C4_amended_token_skipped (f0 name nums : String) (ds : List Char)
    (v : Int) (hr : regexSearchAsm name = some ds)
    (hs : stoi ds = StoiResult.ok v) :
    processFields [f0, name, nums]
      = Except.ok (some ⟨name, v, 4 * v, v * 4, v * 4 + 3,
          parseTimestamps nums, []⟩)
    ∧ ∀ tok ∈ splitOnCharAux ',' nums.toList [], tok ≠ [] →
        ∀ w, stoi tok = StoiResult.ok w →
          (⟨intToUInt32 w, -1⟩ : SaveTimestampInfo) ∈ parseTimestamps nums := by
  constructor
  · simp [processFields, hr, hs]
  · intro tok htok hne w hw
    unfold parseTimestamps
    refine List.mem_filterMap.mpr ⟨tok, htok, ?_⟩
    rw [if_neg hne, hw]

/-- Witness for C4 (amended) at a concrete input: the row
`p,aie_runtime_control2.asm,"6,x,9"` keeps tokens 6 and 9 and stays in
the output despite the bad token "x". -/
theorem C4_amended_token_skipped_witness :
    regexSearchAsm "aie_runtime_control2.asm" = some ['2']
    ∧ stoi ['2'] = StoiResult.ok 2
    ∧ processFields ["p", "aie_runtime_control2.asm", "6,x,9"]
      = Except.ok (some ⟨"aie_runtime_control2.asm", 2, 8, 8, 11,
          [⟨6, -1⟩, ⟨9, -1⟩], []⟩)
    ∧ (⟨9, -1⟩ : SaveTimestampInfo) ∈ parseTimestamps "6,x,9" :=
  ⟨by decide, by decide,
   (C4_amended_token_skipped "p" "aie_runtime_control2.asm" "6,x,9" ['2'] 2
      (by decide) (by decide)).1,
   (C4_amended_token_skipped "p" "aie_runtime_control2.asm" "6,x,9" ['2'] 2
      (by decide) (by decide)).2 ['9'] (by decide) (by decide) 9 (by decide)⟩

lemma pairLt_trans {a b c : Nat × Nat} (h1 : pairLt a b = true)
    (h2 : pairLt b c = true) : pairLt a c = true := by
  obtain ⟨a1, a2⟩ := a
  obtain ⟨b1, b2⟩ := b
  obtain ⟨c1, c2⟩ := c
  simp only [pairLt, Bool.or_eq_true, Bool.and_eq_true, decide_eq_true_eq] at *
  omega

lemma pairLt_flip {a b : Nat × Nat} (h1 : ¬pairLt a b = true) (h2 : ¬a = b) :
    pairLt b a = true := by
  obtain ⟨a1, a2⟩ := a
  obtain ⟨b1, b2⟩ := b
  simp only [pairLt, Bool.or_eq_true, Bool.and_eq_true, decide_eq_true_eq,
    Prod.mk.injEq, not_or, not_and] at *
  omega

lemma mem_mapAppend {k : Nat × Nat} {i : Nat} :
    ∀ {m : List ((Nat × Nat) × List Nat)} {p},
      p ∈ mapAppend k i m → p.1 = k ∨ p ∈ m := by
  intro m
  induction m with
  | nil =>
    intro p hp
    simp [mapAppend] at hp
    left
    rw [hp]
  | cons q rest ih =>
    obtain ⟨kq, vq⟩ := q
    intro p hp
    simp only [mapAppend] at hp
    by_cases h1 : pairLt k kq = true
    · rw [if_pos h1] at hp
      rcases List.mem_cons.mp hp with h | h
      · left; rw [h]
      · right; exact h
    · rw [if_neg h1] at hp
      by_cases h2 : k = kq
      · rw [if_pos h2] at hp
        rcases List.mem_cons.mp hp with h | h
        · left; rw [h]; exact h2.symm
        · right; exact List.mem_cons_of_mem _ h
      · rw [if_neg h2] at hp
        rcases List.mem_cons.mp hp with h | h
        · right; rw [h]; exact List.mem_cons_self _ _
        · rcases ih h with h3 | h3
          · left; exact h3
          · right; exact List.mem_cons_of_mem _ h3

lemma pairwise_mapAppend (k : Nat × Nat) (i : Nat) :
    ∀ m : List ((Nat × Nat) × List Nat),
      m.Pairwise (fun a b => pairLt a.1 b.1 = true) →
      (mapAppend k i m).Pairwise (fun a b => pairLt a.1 b.1 = true) := by
  intro m
  induction m with
  | nil =>
    intro _
    simp [mapAppend]
  | cons q rest ih =>
    obtain ⟨kq, vq⟩ := q
    intro h
    rw [List.pairwise_cons] at h
    obtain ⟨hhead, htail⟩ := h
    simp only [mapAppend]
    by_cases h1 : pairLt k kq = true
    · rw [if_pos h1]
      refine List.pairwise_cons.mpr ⟨?_, List.pairwise_cons.mpr ⟨hhead, htail⟩⟩
      intro p hp
      rcases List.mem_cons.mp hp with h | h
      · rw [h]; exact h1
      · exact pairLt_trans h1 (hhead p h)
    · rw [if_neg h1]
      by_cases h2 : k = kq
      · rw [if_pos h2]
        exact List.pairwise_cons.mpr ⟨fun p hp => hhead p hp, htail⟩
      · rw [if_neg h2]
        refine List.pairwise_cons.mpr ⟨?_, ih htail⟩
        intro p hp
        rcases mem_mapAppend hp with h3 | h3
        · rw [h3]; exact pairLt_flip h1 h2
        · exact hhead p h3

/-- Counterexample to C3: the filtered counter list
`[counter at tile (1,0), counter at tile (0,0)]` encounters tile (1,0)
first (its first counter has index 0, preceding index 1 of tile (0,0)),
yet the emitted grouping — a `std::map` iterated in sorted key order —
lists tile (0,0) before tile (1,0), both in `tileGroups` and in the
emitted `tiles` text of the jprobe block. -/
theorem C3_counterexample :
    (tileGroups [⟨1, 0, 0, "aie", 0, "", ""⟩, ⟨0, 0, 0, "aie", 0, "", ""⟩]).map
        Prod.fst = [(0, 0), (1, 0)]
    ∧ List.findIdx (fun c : CTCounterInfo => c.column == 1 && c.row == 0)
        [⟨1, 0, 0, "aie", 0, "", ""⟩, ⟨0, 0, 0, "aie", 0, "", ""⟩]
      < List.findIdx (fun c : CTCounterInfo => c.column == 0 && c.row == 0)
        [⟨1, 0, 0, "aie", 0, "", ""⟩, ⟨0, 0, 0, "aie", 0, "", ""⟩]
    ∧ tileLines [⟨1, 0, 0, "aie", 0, "", ""⟩, ⟨0, 0, 0, "aie", 0, "", ""⟩]
      = "        \x7b\"col\": 0, \"row\": 0, \"counters\": [ctr_1]\x7d,\n        \x7b\"col\": 1, \"row\": 0, \"counters\": [ctr_0]\x7d\n" :=
  ⟨by decide, by decide, rfl⟩

/-- C3 amended: in every emitted instrumentation block the tile
groupings appear in ascending lexicographic `(column, row)` order (the
iteration order of the `std::map` keyed by the tile pair), not in
encounter order of the record's filtered counter list. -/
theorem C3_amended_sorted_tiles (counters : List CTCounterInfo) :
    (tileGroups counters).Pairwise (fun a b => pairLt a.1 b.1 = true) := by
  suffices h : ∀ (l : List (Nat × CTCounterInfo))
      (m : List ((Nat × Nat) × List Nat)),
      m.Pairwise (fun a b => pairLt a.1 b.1 = true) →
      (tileGroupsAux l m).Pairwise (fun a b => pairLt a.1 b.1 = true) by
    exact h counters.enum [] (by simp)
  intro l
  induction l with
  | nil => intro m hm; exact hm
  | cons ic rest ih =>
    obtain ⟨i, c⟩ := ic
    intro m hm
    simp only [tileGroupsAux]
    exact ih _ (pairwise_mapAppend _ _ _ hm)

lemma bit8_iff (payload : Nat) :
    ((payload >>> 8) &&& 1 = 1) ↔ payload.testBit 8 = true := by
  rw [Nat.testBit_to_div_mod, Nat.shiftRight_eq_div_pow, Nat.and_one_is_mod]
  simp

/-- C5: a counter with metric set exactly "read_bandwidth" gets
direction "output" when payload bit 8 is set and "input" when it is
clear; metric set "mm2s_throughput" gets "output" regardless of the
payload; and a metric set containing neither "throughput" nor
"bandwidth" gets the empty direction, and the counter's metadata entry
carries no `port_direction` field (it is exactly the entry without the
port clause). -/
theorem C5_port_direction (payload : Nat) (ms : String) :
    ((payload.testBit 8 = true →
        resolvePortDirection "read_bandwidth" payload = "output")
     ∧ (payload.testBit 8 = false →
        resolvePortDirection "read_bandwidth" payload = "input"))
    ∧ resolvePortDirection "mm2s_throughput" payload = "output"
    ∧ (containsSubstr ms "throughput" = false →
       containsSubstr ms "bandwidth" = false →
        resolvePortDirection ms payload = ""
        ∧ ∀ c : CTCounterInfo, c.portDirection = "" →
            metadataEntry c =
              "        \x7b\"column\": " ++ toString c.column
                ++ ", \"row\": " ++ toString c.row
                ++ ", \"counter\": " ++ toString c.counterNumber
                ++ ", \"module\": \"" ++ c.module
                ++ "\", \"address\": \"" ++ formatAddress c.address ++ "\""
                ++ metricClause c ++ "\x7d") := by
  refine ⟨⟨?_, ?_⟩, ?_, ?_⟩
  · intro h
    unfold resolvePortDirection
    rw [if_pos (show isThroughputMetric "read_bandwidth" = true by decide)]
    unfold getPortDirection
    rw [if_pos (show ("read_bandwidth" = "ddr_bandwidth" ∨
          "read_bandwidth" = "read_bandwidth" ∨
          "read_bandwidth" = "write_bandwidth") by decide)]
    rw [if_pos ((bit8_iff payload).mpr h)]
  · intro h
    unfold resolvePortDirection
    rw [if_pos (show isThroughputMetric "read_bandwidth" = true by decide)]
    unfold getPortDirection
    rw [if_pos (show ("read_bandwidth" = "ddr_bandwidth" ∨
          "read_bandwidth" = "read_bandwidth" ∨
          "read_bandwidth" = "write_bandwidth") by decide)]
    rw [if_neg (fun hc => absurd ((bit8_iff payload).mp hc) (by simp [h]))]
  · unfold resolvePortDirection
    rw [if_pos (show isThroughputMetric "mm2s_throughput" = true by decide)]
    unfold getPortDirection
    rw [if_neg (show ¬("mm2s_throughput" = "ddr_bandwidth" ∨
          "mm2s_throughput" = "read_bandwidth" ∨
          "mm2s_throughput" = "write_bandwidth") by decide)]
    rw [if_neg (show ¬((containsSubstr "mm2s_throughput" "input" ||
          containsSubstr "mm2s_throughput" "s2mm") = true) by decide)]
    rw [if_pos (show (containsSubstr "mm2s_throughput" "output" ||
          containsSubstr "mm2s_throughput" "mm2s") = true by decide)]
  · intro ht hb
    have hnt : isThroughputMetric ms = false := by
      unfold isThroughputMetric
      rw [ht, hb]
      rfl
    constructor
    · unfold resolvePortDirection
      rw [if_neg (by simp [hnt])]
    · intro c hc
      unfold metadataEntry
      rw [show portClause c = "" by unfold portClause; rw [if_pos hc]]
      rw [strAppendEmpty]

/-- Witness for C5 at concrete inputs: payload 256 has bit 8 set,
payload 0 has it clear, and "total_cycles" contains neither
"throughput" nor "bandwidth". -/
theorem C5_port_direction_witness :
    Nat.testBit 256 8 = true
    ∧ resolvePortDirection "read_bandwidth" 256 = "output"
    ∧ Nat.testBit 0 8 = false
    ∧ resolvePortDirection "read_bandwidth" 0 = "input"
    ∧ resolvePortDirection "mm2s_throughput" 0 = "output"
    ∧ containsSubstr "total_cycles" "throughput" = false
    ∧ containsSubstr "total_cycles" "bandwidth" = false
    ∧ resolvePortDirection "total_cycles" 0 = "" :=
  ⟨by decide, (C5_port_direction 256 "total_cycles").1.1 (by decide),
   by decide, (C5_port_direction 0 "total_cycles").1.2 (by decide),
   (C5_port_direction 0 "total_cycles").2.1,
   by decide, by decide,
   ((C5_port_direction 0 "total_cycles").2.2 (by decide) (by decide)).1⟩

/-- Witness for C9 at a concrete input. -/
theorem C9_metrics_collection_lookup_witness :
    hasEntry ⟨[]⟩ module_type.core "s" = false
    ∧ getMetricCollection
        (addMetricCollection ⟨[]⟩ module_type.core "s" ⟨["e"]⟩)
        module_type.core "s" = ⟨["e"]⟩
    ∧ getMetricCollection ⟨[]⟩ module_type.core "s" = emptyCollection :=
  ⟨rfl,
   (C9_metrics_collection_lookup ⟨[]⟩ module_type.core "s" ⟨["e"]⟩).1,
   (C9_metrics_collection_lookup ⟨[]⟩ module_type.core "s" ⟨["e"]⟩).2 rfl⟩
